import Mathlib

/-!
Verification of the Porcupine Windows launcher (`src/launcher/main.c`).

The launcher is a single straight-line function `wmain` that
resolves its own executable path, derives the entry-script path by
truncating the path twice at the last backslash and appending
`\launch.pyw`, loads `python3.dll`, resolves `Py_Main`, builds a
three-slot argument vector `[argv[0], scriptpath, NULL]`, and invokes
`Py_Main(2, myargv)`, returning its result.  A number of debug
message boxes (`asd 1` .. `asd 12`, the intermediate path contents,
each argument slot, and the return value) are shown along the way.

We embed the program shallowly: the platform calls are an `Env`
oracle, the observable behaviour is a trace of `Event`s plus an
`Outcome` (an exit code, or `undef` marking a run that performs
undefined behaviour such as writing through a null pointer).
-/

namespace Launcher

/-- Wide strings are modelled as lists of characters. -/
abbrev Str := List Char

/-- The Windows path separator used by the launcher. -/
def sep : Char := '\\'

/-- Convert a Lean string literal to our wide-string model. -/
def str (s : String) : Str := s.data

/-- The constant `MAX_PATH` from the Windows headers; the launcher allocates a
buffer of this many characters and passes `MAX_PATH - 1` as the size
argument of `GetModuleFileNameW`. -/
def MAX_PATH : Nat := 260

/-- Observable events of a run: message boxes (text, title, and
whether the error icon / fatal title path was used), and the single
call into the embedded runtime entry point `Py_Main`. -/
inductive Event where
  | box (text title : Str) (iserr : Bool)
  | call (argc : Nat) (argv : List (Option Str))
  deriving DecidableEq

/-- Title of every fatal-error box shown by `fatal_error`. -/
def fatalTitle : Str := str "Porcupine cannot start"

/-- The box shown by `fatal_error(msg)`. -/
def errBox (text : Str) : Event := Event.box text fatalTitle true

/-- A plain `MB_OK` debug box with literal text. -/
def mb (text title : String) : Event := Event.box (str text) (str title) false

/-- A plain `MB_OK` debug box whose text is a computed string. -/
def mbS (text : Str) (title : String) : Event := Event.box text (str title) false

/-- Result of a run: the process exit code, or undefined behaviour
(a dereference of a null pointer in the C source). -/
inductive Outcome where
  | exitCode (r : Int)
  | undef
  deriving DecidableEq

/-- The platform oracle: outcomes of the external calls `calloc`
(twice), `GetModuleFileNameW`, `LoadLibraryW`, `GetProcAddress`, and
the behaviour of the resolved `Py_Main` entry point. -/
structure Env where
  allocPathOk : Bool
  gmfnRet : Nat
  gmfnBuf : Str
  pydllOk : Bool
  pyMainOk : Bool
  allocArgvOk : Bool
  pyMain : Nat → List (Option Str) → Int

/-- Index of the last occurrence of `c` in `s`, the position found by
`wcsrchr(s, c)`; `none` when `wcsrchr` returns `NULL`. -/
def lastIdxOf (c : Char) : Str → Option Nat
  | [] => none
  | a :: rest =>
    match lastIdxOf c rest with
    | some i => some (i + 1)
    | none => if a = c then some 0 else none

/-- Model of `*wcsrchr(s, '\\') = L'\0'`: truncate `s` at its last backslash.
`none` models the null-pointer dereference when no backslash exists. -/
def truncAtLastSep (s : Str) : Option Str :=
  (lastIdxOf sep s).map fun i => s.take i

/-- The fixed suffix appended by `wcscat(launcherpath, L"\\launch.pyw")`. -/
def launchSuffix : Str := str "\\launch.pyw"

/-- Lines 31-35 of `main.c`: truncate at the last separator twice,
then append `\launch.pyw`. -/
def deriveScriptPath (s : Str) : Option Str :=
  match truncAtLastSep s with
  | none => none
  | some s1 =>
    match truncAtLastSep s1 with
    | none => none
    | some s2 => some (s2 ++ launchSuffix)

/-- The text shown for an argument slot: the string itself, or
`"NULL"` for the null sentinel (`myargv[i] ? myargv[i] : L"NULL"`). -/
def argDisplay : Option Str → Str
  | some s => s
  | none => str "NULL"

/-- Model of `swprintf(msg, 40, L"Py_Main(%d, ...) returned %d", 2, r)`: the
formatted text never reaches the 40-character bound, so truncation
does not occur. -/
def pyMainDoneMsg (r : Int) : Str := str "Py_Main(2, ...) returned " ++ (toString r).data

/-- The argument vector built at lines 50-52: `calloc` zeroes all
three slots, then slot 0 receives the original `argv[0]` and slot 1
the derived script path; slot 2 stays the null sentinel. -/
def builtArgv (argv : List Str) (script : Str) : List (Option Str) :=
  [argv.head?, some script, none]

/-- Message of the fatal box shown when the path buffer `calloc` fails. -/
def allocMsg : Str := str "allocating memory failed"

/-- Message of the fatal box shown when `GetModuleFileNameW` fails. -/
def gmfnMsg : Str := str "GetModuleFileNameW(NULL, ...) failed"

/-- Message of the fatal box shown when `LoadLibraryW` fails. -/
def loadMsg : Str := str "Can't load python3.dll"

/-- Message of the fatal box shown when `GetProcAddress` fails. -/
def symMsg : Str := str "Can't find Py_Main() in python3.dll"

/-- Shallow embedding of `wmain` (lines 16-63 of `main.c`), emitting
the trace of message boxes and the `Py_Main` call in source order. -/
def wmain (env : Env) (argv : List Str) : List Event × Outcome :=
  let t0 := [mb "asd 1" "asd1", mb "asd 2" "asd2"]
  if env.allocPathOk = false then
    (t0 ++ [errBox allocMsg], Outcome.exitCode 1)
  else
    let t1 := t0 ++ [mb "asd 3" "asd3"]
    if env.gmfnRet = 0 then
      (t1 ++ [errBox gmfnMsg], Outcome.exitCode 1)
    else
      let s0 := env.gmfnBuf
      let t2 := t1 ++ [mb "asd 4" "adsd4", mbS s0 "asd5"]
      match truncAtLastSep s0 with
      | none => (t2, Outcome.undef)
      | some s1 =>
        let t3 := t2 ++ [mbS s1 "asd6"]
        match truncAtLastSep s1 with
        | none => (t3, Outcome.undef)
        | some s2 =>
          let script := s2 ++ launchSuffix
          let t4 := t3 ++ [mbS s2 "asd7", mbS script "asd8", mb "asd 9" "asd9"]
          if env.pydllOk = false then
            (t4 ++ [errBox loadMsg], Outcome.exitCode 1)
          else
            let t5 := t4 ++ [mb "asd 10" "asd10", mb "asd 11" "asd11"]
            if env.pyMainOk = false then
              (t5 ++ [errBox symMsg], Outcome.exitCode 1)
            else
              let t6 := t5 ++ [mb "asd 12" "asd12"]
              if env.allocArgvOk = false then
                (t6, Outcome.undef)
              else
                let myargv := builtArgv argv script
                let t7 := t6 ++ myargv.map (fun a => mbS (argDisplay a) "argument")
                let t8 := t7 ++ [mb "calling main" "main START"]
                let r := env.pyMain 2 myargv
                (t8 ++ [Event.call 2 myargv, mbS (pyMainDoneMsg r) "main DONE"],
                 Outcome.exitCode r)

/-- Boxes shown before the first `calloc` check. -/
def trace0 : List Event := [mb "asd 1" "asd1", mb "asd 2" "asd2"]

/-- Boxes shown before the `GetModuleFileNameW` check. -/
def trace1 : List Event := trace0 ++ [mb "asd 3" "asd3"]

/-- Boxes shown before the first `wcsrchr` dereference. -/
def trace2 (env : Env) : List Event :=
  trace1 ++ [mb "asd 4" "adsd4", mbS env.gmfnBuf "asd5"]

/-- Boxes shown before the second `wcsrchr` dereference. -/
def trace3 (env : Env) (s1 : Str) : List Event := trace2 env ++ [mbS s1 "asd6"]

/-- Boxes shown before the `LoadLibraryW` check. -/
def trace4 (env : Env) (s1 s2 : Str) : List Event :=
  trace3 env s1 ++ [mbS s2 "asd7", mbS (s2 ++ launchSuffix) "asd8", mb "asd 9" "asd9"]

/-- Boxes shown before the `GetProcAddress` check. -/
def trace5 (env : Env) (s1 s2 : Str) : List Event :=
  trace4 env s1 s2 ++ [mb "asd 10" "asd10", mb "asd 11" "asd11"]

/-- Boxes shown before the second `calloc` (argument-vector) write. -/
def trace6 (env : Env) (s1 s2 : Str) : List Event :=
  trace5 env s1 s2 ++ [mb "asd 12" "asd12"]

/-- All boxes shown on a fully successful run before `Py_Main` is
invoked, in source order. -/
def preTrace (env : Env) (argv : List Str) (s1 s2 : Str) : List Event :=
  trace6 env s1 s2 ++
    (builtArgv argv (s2 ++ launchSuffix)).map (fun a => mbS (argDisplay a) "argument") ++
    [mb "calling main" "main START"]

/-- Recognise a fatal-error box: error icon and the fatal title. -/
def isErr : Event → Bool
  | Event.box _ title iserr => iserr && title == fatalTitle
  | _ => false

/-- Recognise the `Py_Main` invocation event. -/
def isCall : Event → Bool
  | Event.call _ _ => true
  | _ => false

/-- Recognise a message-box event. -/
def isBox : Event → Bool
  | Event.box _ _ _ => true
  | _ => false

/-- Number of fatal-error boxes in a trace. -/
def countErr (t : List Event) : Nat := (t.filter isErr).length

/-- The `Py_Main` invocations recorded in a trace, with their
argument counts and vectors. -/
def callsOf : List Event → List (Nat × List (Option Str))
  | [] => []
  | Event.call c v :: t => (c, v) :: callsOf t
  | Event.box _ _ _ :: t => callsOf t

/-- Positions `i2 < i1` of the second-to-last and last
occurrences of the path separator in `s`: both hold a backslash, no
backslash lies strictly between them, and none lies after `i1`. -/
def SecondToLastSep (s : Str) (i2 i1 : Nat) : Prop :=
  s[i2]? = some sep ∧ s[i1]? = some sep ∧ i2 < i1 ∧
  (∀ j : Nat, i2 < j → j < i1 → s[j]? ≠ some sep) ∧
  (∀ j : Nat, i1 < j → s[j]? ≠ some sep)

/-- Modelled from the spec: the argument vector the specification
prescribes — `InterpreterExecutablePath` (own path with the last
segment replaced by `\python.exe`; this derivation is absent from
this iteration's code), then `LauncherScriptPath`, then every
original argument except slot 0, then the null terminator. -/
def specArgVector (own : Str) (rest : List Str) : Option (List (Option Str)) :=
  match truncAtLastSep own, deriveScriptPath own with
  | some d, some script =>
      some (some (d ++ str "\\python.exe") :: some script :: (rest.map some ++ [none]))
  | _, _ => none

/-- The own path used in the spec's worked example. -/
def porcPath : Str := str "C:\\Porcupine\\Python\\Porcupine.exe"

/-- The path `porcPath` truncated at its last backslash. -/
def porcDir : Str := str "C:\\Porcupine\\Python"

/-- The path `porcPath` truncated at its last two backslashes. -/
def porcRoot : Str := str "C:\\Porcupine"

/-- The derived entry-script path for `porcPath`. -/
def porcScript : Str := str "C:\\Porcupine\\launch.pyw"

/-- Environment in which every platform call succeeds and `Py_Main`
returns 0. -/
def envOk : Env := ⟨true, 33, porcPath, true, true, true, fun _ _ => 0⟩

/-- Successful environment whose `Py_Main` returns the negative value -3. -/
def envNeg : Env := ⟨true, 33, porcPath, true, true, true, fun _ _ => -3⟩

/-- Environment in which `GetModuleFileNameW` reports the truncation
value `MAX_PATH - 1` (the size that `wmain` passes) with a clipped
path in the buffer; `Py_Main` returns 7. -/
def envTrunc : Env :=
  ⟨true, MAX_PATH - 1, str "C:\\Porcupine\\Python\\Porcupine.ex", true, true, true,
   fun _ _ => 7⟩

/-- Environment in which `LoadLibraryW` fails. -/
def envLoadFail : Env := ⟨true, 33, porcPath, false, true, true, fun _ _ => 0⟩

/-- Environment in which the first `calloc` (the path buffer) fails. -/
def envAllocFail : Env := ⟨false, 33, porcPath, true, true, true, fun _ _ => 0⟩

/-- Environment in which `GetModuleFileNameW` fails, returning 0. -/
def envGmfnFail : Env := ⟨true, 0, [], true, true, true, fun _ _ => 0⟩

/-- Environment in which `GetProcAddress` cannot find `Py_Main`. -/
def envSymFail : Env := ⟨true, 33, porcPath, true, false, true, fun _ _ => 0⟩

/-- Environment whose resolved own path contains no backslash. -/
def envNoSep : Env := ⟨true, 13, str "Porcupine.exe", true, true, true, fun _ _ => 0⟩

/-- Environment in which the second `calloc` (the three-slot argument
vector) fails while everything else succeeds. -/
def envArgvAllocFail : Env := ⟨true, 33, porcPath, true, true, false, fun _ _ => 0⟩

/-! ### Properties of the last-separator search (`wcsrchr`) -/

theorem lastIdxOf_none (c : Char) (s : Str) (h : lastIdxOf c s = none) : c ∉ s := by
  induction s with
  | nil => simp
  | cons a rest ih =>
    simp only [lastIdxOf] at h
    cases hr : lastIdxOf c rest with
    | some i => rw [hr] at h; simp at h
    | none =>
      rw [hr] at h
      by_cases hac : a = c
      · simp [hac] at h
      · simp only [List.mem_cons]
        rintro (rfl | hm)
        · exact hac rfl
        · exact ih hr hm

theorem lastIdxOf_isSome (c : Char) (s : Str) (h : c ∈ s) : ∃ i, lastIdxOf c s = some i := by
  induction s with
  | nil => simp at h
  | cons a rest ih =>
    cases hr : lastIdxOf c rest with
    | some i => exact ⟨i + 1, by simp [lastIdxOf, hr]⟩
    | none =>
      have hac : a = c := by
        rcases List.mem_cons.mp h with rfl | hm
        · rfl
        · exact absurd hm (lastIdxOf_none c rest hr)
      exact ⟨0, by simp [lastIdxOf, hr, hac]⟩

theorem lastIdxOf_getElem (c : Char) (s : Str) (i : Nat)
    (h : lastIdxOf c s = some i) : s[i]? = some c := by
  induction s generalizing i with
  | nil => simp [lastIdxOf] at h
  | cons a rest ih =>
    cases hr : lastIdxOf c rest with
    | some j =>
      simp only [lastIdxOf, hr, Option.some.injEq] at h
      subst h
      simpa using ih j hr
    | none =>
      by_cases hac : a = c
      · subst hac
        simp [lastIdxOf, hr] at h
        subst h
        simp
      · simp [lastIdxOf, hr, hac] at h

theorem lastIdxOf_last (c : Char) (s : Str) (i : Nat)
    (h : lastIdxOf c s = some i) : ∀ j, i < j → s[j]? ≠ some c := by
  induction s generalizing i with
  | nil => simp [lastIdxOf] at h
  | cons a rest ih =>
    intro j hij
    cases hr : lastIdxOf c rest with
    | some k =>
      simp only [lastIdxOf, hr, Option.some.injEq] at h
      subst h
      cases j with
      | zero => omega
      | succ j' =>
        simp only [List.getElem?_cons_succ]
        exact ih k hr j' (by omega)
    | none =>
      by_cases hac : a = c
      · subst hac
        simp [lastIdxOf, hr] at h
        subst h
        cases j with
        | zero => omega
        | succ j' =>
          simp only [List.getElem?_cons_succ]
          intro hj
          exact lastIdxOf_none a rest hr (List.getElem?_mem hj)
      · simp [lastIdxOf, hr, hac] at h

theorem lastIdxOf_lt_length (c : Char) (s : Str) (i : Nat)
    (h : lastIdxOf c s = some i) : i < s.length :=
  (List.getElem?_eq_some_iff.mp (lastIdxOf_getElem c s i h)).1

theorem two_idx_of_count (c : Char) (s : Str) (h : 2 ≤ s.count c) :
    ∃ i j : Nat, i < j ∧ s[i]? = some c ∧ s[j]? = some c := by
  induction s with
  | nil => simp at h
  | cons a rest ih =>
    by_cases hac : a = c
    · subst hac
      have hone : 0 < rest.count a := by
        have := List.count_cons_self a rest
        omega
      obtain ⟨j, hj⟩ := List.mem_iff_getElem?.mp (List.count_pos_iff.mp hone)
      exact ⟨0, j + 1, by omega, by simp, by simpa using hj⟩
    · have hcr : 2 ≤ rest.count c := by
        have := List.count_cons_of_ne (Ne.symm hac) rest
        omega
      obtain ⟨i, j, hij, hi, hj⟩ := ih hcr
      exact ⟨i + 1, j + 1, by omega, by simpa using hi, by simpa using hj⟩

/-! ### Branch equations for `wmain` -/

theorem wmain_alloc_fail (env : Env) (argv : List Str)
    (hA : env.allocPathOk = false) :
    wmain env argv = (trace0 ++ [errBox allocMsg], Outcome.exitCode 1) := by
  simp [wmain, trace0, hA]

theorem wmain_gmfn_fail (env : Env) (argv : List Str)
    (hA : env.allocPathOk = true) (hG : env.gmfnRet = 0) :
    wmain env argv = (trace1 ++ [errBox gmfnMsg], Outcome.exitCode 1) := by
  simp [wmain, trace0, trace1, hA, hG]

theorem wmain_trunc1_undef (env : Env) (argv : List Str)
    (hA : env.allocPathOk = true) (hG : env.gmfnRet ≠ 0)
    (hT : truncAtLastSep env.gmfnBuf = none) :
    wmain env argv = (trace2 env, Outcome.undef) := by
  simp [wmain, trace0, trace1, trace2, hA, hG, hT]

theorem wmain_trunc2_undef (env : Env) (argv : List Str) (s1 : Str)
    (hA : env.allocPathOk = true) (hG : env.gmfnRet ≠ 0)
    (h1 : truncAtLastSep env.gmfnBuf = some s1)
    (hT : truncAtLastSep s1 = none) :
    wmain env argv = (trace3 env s1, Outcome.undef) := by
  simp [wmain, trace0, trace1, trace2, trace3, hA, hG, h1, hT]

theorem wmain_load_fail (env : Env) (argv : List Str) (s1 s2 : Str)
    (hA : env.allocPathOk = true) (hG : env.gmfnRet ≠ 0)
    (h1 : truncAtLastSep env.gmfnBuf = some s1)
    (h2 : truncAtLastSep s1 = some s2)
    (hL : env.pydllOk = false) :
    wmain env argv = (trace4 env s1 s2 ++ [errBox loadMsg], Outcome.exitCode 1) := by
  simp [wmain, trace0, trace1, trace2, trace3, trace4, hA, hG, h1, h2, hL]

theorem wmain_sym_fail (env : Env) (argv : List Str) (s1 s2 : Str)
    (hA : env.allocPathOk = true) (hG : env.gmfnRet ≠ 0)
    (h1 : truncAtLastSep env.gmfnBuf = some s1)
    (h2 : truncAtLastSep s1 = some s2)
    (hL : env.pydllOk = true) (hP : env.pyMainOk = false) :
    wmain env argv = (trace5 env s1 s2 ++ [errBox symMsg], Outcome.exitCode 1) := by
  simp [wmain, trace0, trace1, trace2, trace3, trace4, trace5, hA, hG, h1, h2, hL, hP]

theorem wmain_argv_alloc_undef (env : Env) (argv : List Str) (s1 s2 : Str)
    (hA : env.allocPathOk = true) (hG : env.gmfnRet ≠ 0)
    (h1 : truncAtLastSep env.gmfnBuf = some s1)
    (h2 : truncAtLastSep s1 = some s2)
    (hL : env.pydllOk = true) (hP : env.pyMainOk = true)
    (hV : env.allocArgvOk = false) :
    wmain env argv = (trace6 env s1 s2, Outcome.undef) := by
  simp [wmain, trace0, trace1, trace2, trace3, trace4, trace5, trace6,
    hA, hG, h1, h2, hL, hP, hV]

theorem wmain_success (env : Env) (argv : List Str) (s1 s2 : Str)
    (hA : env.allocPathOk = true) (hG : env.gmfnRet ≠ 0)
    (h1 : truncAtLastSep env.gmfnBuf = some s1)
    (h2 : truncAtLastSep s1 = some s2)
    (hL : env.pydllOk = true) (hP : env.pyMainOk = true)
    (hV : env.allocArgvOk = true) :
    wmain env argv =
      (preTrace env argv s1 s2 ++
        [Event.call 2 (builtArgv argv (s2 ++ launchSuffix)),
         mbS (pyMainDoneMsg (env.pyMain 2 (builtArgv argv (s2 ++ launchSuffix)))) "main DONE"],
       Outcome.exitCode (env.pyMain 2 (builtArgv argv (s2 ++ launchSuffix)))) := by
  simp [wmain, preTrace, trace0, trace1, trace2, trace3, trace4, trace5, trace6,
    hA, hG, h1, h2, hL, hP, hV]

/-! ### Claims -/

/-- Claim C2: for every own-path containing at least two backslash
separators, the script-path derivation returns the prefix of the
path up to (excluding) the second-to-last separator with the fixed
suffix `\launch.pyw` appended; in particular
`C:\Porcupine\Python\Porcupine.exe` yields `C:\Porcupine\launch.pyw`. -/
theorem C2_script_path_derivation :
    (∀ s : Str, 2 ≤ s.count sep →
      ∃ i2 i1 : Nat, SecondToLastSep s i2 i1 ∧
        deriveScriptPath s = some (s.take i2 ++ launchSuffix)) ∧
    deriveScriptPath porcPath = some porcScript := by
  constructor
  · intro s hcount
    obtain ⟨i, j, hij, hi, hj⟩ := two_idx_of_count sep s hcount
    obtain ⟨i1, h1⟩ := lastIdxOf_isSome sep s (List.getElem?_mem hj)
    have hj_le : j ≤ i1 := by
      by_contra hlt
      exact lastIdxOf_last sep s i1 h1 j (by omega) hj
    have hi_lt_i1 : i < i1 := by omega
    have htake_i : (s.take i1)[i]? = some sep := by
      rw [List.getElem?_take_of_lt hi_lt_i1]; exact hi
    obtain ⟨i2, h2⟩ := lastIdxOf_isSome sep (s.take i1) (List.getElem?_mem htake_i)
    have hi2_lt : i2 < (s.take i1).length := lastIdxOf_lt_length _ _ _ h2
    have hlen : (s.take i1).length ≤ i1 := by
      rw [List.length_take]; exact Nat.min_le_left _ _
    have hi2_lt_i1 : i2 < i1 := by omega
    refine ⟨i2, i1, ⟨?_, lastIdxOf_getElem sep s i1 h1, hi2_lt_i1, ?_, ?_⟩, ?_⟩
    · have := lastIdxOf_getElem sep _ i2 h2
      rwa [List.getElem?_take_of_lt hi2_lt_i1] at this
    · intro k hk1 hk2 hksep
      have : (s.take i1)[k]? = some sep := by
        rw [List.getElem?_take_of_lt hk2]; exact hksep
      exact lastIdxOf_last sep _ i2 h2 k hk1 this
    · exact fun k hk hksep => lastIdxOf_last sep s i1 h1 k hk hksep
    · have e1 : truncAtLastSep s = some (s.take i1) := by
        simp [truncAtLastSep, h1]
      have e2 : truncAtLastSep (s.take i1) = some ((s.take i1).take i2) := by
        simp [truncAtLastSep, h2]
      have e3 : (s.take i1).take i2 = s.take i2 := by
        rw [List.take_take]
        congr 1
        omega
      simp [deriveScriptPath, e1, e2, e3]
  · decide

/-- Witness for C2 at the spec's worked example
`C:\Porcupine\Python\Porcupine.exe`. -/
theorem C2_witness :
    2 ≤ porcPath.count sep ∧
    ∃ i2 i1 : Nat, SecondToLastSep porcPath i2 i1 ∧
      deriveScriptPath porcPath = some (porcPath.take i2 ++ launchSuffix) :=
  ⟨by decide, C2_script_path_derivation.1 porcPath (by decide)⟩

/-- Claim C3 (the code is the divergence): when the own path contains
no backslash, the first `wcsrchr` returns `NULL` and `wmain`
dereferences it unchecked — the run ends in undefined behaviour
after the `asd5` box, with no fatal-error box and no exit status,
instead of the explicit fatal `PathMalformedFailure` the
specification requires. -/
theorem C3_no_separator_undefined_behaviour :
    truncAtLastSep (str "Porcupine.exe") = none ∧
    wmain envNoSep [str "Porcupine.exe"] = (trace2 envNoSep, Outcome.undef) ∧
    countErr (trace2 envNoSep) = 0 := by
  refine ⟨by decide, ?_, by decide⟩
  exact wmain_trunc1_undef envNoSep [str "Porcupine.exe"] rfl (by decide) (by decide)

/-- Counterexample to claim C4: with the platform reporting the
truncation value `MAX_PATH - 1` (the very size `wmain` passes to
`GetModuleFileNameW`), the check `<= 0` passes, no fatal box is
shown, and the run continues all the way to `Py_Main`, exiting with
its value 7 — truncation is not treated as a failure. -/
theorem C4_counterexample :
    envTrunc.gmfnRet = MAX_PATH - 1 ∧
    errBox gmfnMsg ∉ (wmain envTrunc [str "self"]).1 ∧
    (wmain envTrunc [str "self"]).2 = Outcome.exitCode 7 ∧
    (7 : Int) ≠ 1 := by
  refine ⟨rfl, ?_, ?_, by decide⟩ <;> decide

/-- Claim C4 as amended: the only return value of
`GetModuleFileNameW` treated as fatal is 0 (with the API's unsigned
return type, the only value satisfying the code's `<= 0` check); any
non-zero return — including the truncation value `MAX_PATH - 1` —
passes the check and execution continues with the buffer contents. -/
theorem C4_only_zero_return_fatal (env : Env) (argv : List Str)
    (hA : env.allocPathOk = true) :
    (env.gmfnRet = 0 →
      wmain env argv = (trace1 ++ [errBox gmfnMsg], Outcome.exitCode 1)) ∧
    (env.gmfnRet ≠ 0 → errBox gmfnMsg ∉ (wmain env argv).1) := by
  constructor
  · exact fun hG => wmain_gmfn_fail env argv hA hG
  · intro hG
    cases hT1 : truncAtLastSep env.gmfnBuf with
    | none =>
      rw [wmain_trunc1_undef env argv hA hG hT1]
      simp [trace0, trace1, trace2, errBox, mb, mbS, gmfnMsg, fatalTitle, str]
    | some s1 =>
      cases hT2 : truncAtLastSep s1 with
      | none =>
        rw [wmain_trunc2_undef env argv s1 hA hG hT1 hT2]
        simp [trace0, trace1, trace2, trace3, errBox, mb, mbS, gmfnMsg, fatalTitle, str]
      | some s2 =>
        by_cases hL : env.pydllOk = false
        · rw [wmain_load_fail env argv s1 s2 hA hG hT1 hT2 hL]
          simp [trace0, trace1, trace2, trace3, trace4, errBox, mb, mbS,
            gmfnMsg, loadMsg, fatalTitle, str]
        · have hL' : env.pydllOk = true := by simpa using hL
          by_cases hP : env.pyMainOk = false
          · rw [wmain_sym_fail env argv s1 s2 hA hG hT1 hT2 hL' hP]
            simp [trace0, trace1, trace2, trace3, trace4, trace5, errBox, mb, mbS,
              gmfnMsg, symMsg, fatalTitle, str]
          · have hP' : env.pyMainOk = true := by simpa using hP
            by_cases hV : env.allocArgvOk = false
            · rw [wmain_argv_alloc_undef env argv s1 s2 hA hG hT1 hT2 hL' hP' hV]
              simp [trace0, trace1, trace2, trace3, trace4, trace5, trace6,
                errBox, mb, mbS, gmfnMsg, fatalTitle, str]
            · have hV' : env.allocArgvOk = true := by simpa using hV
              rw [wmain_success env argv s1 s2 hA hG hT1 hT2 hL' hP' hV']
              simp [preTrace, trace0, trace1, trace2, trace3, trace4, trace5, trace6,
                builtArgv, errBox, mb, mbS, gmfnMsg, fatalTitle, str]

/-- Witness for the amended C4 at the truncation environment. -/
theorem C4_witness :
    errBox gmfnMsg ∉ (wmain envTrunc [str "self"]).1 :=
  (C4_only_zero_return_fatal envTrunc [str "self"] rfl).2 (by decide)

/-- Claim C5: on every run in which `Py_Main` is invoked, the process
exit code is exactly `Py_Main`'s return value — the same
unconstrained integer the oracle returns, so zero and negative
values included. -/
theorem C5_exit_code_propagated (env : Env) (argv : List Str) (s1 s2 : Str)
    (hA : env.allocPathOk = true) (hG : env.gmfnRet ≠ 0)
    (h1 : truncAtLastSep env.gmfnBuf = some s1)
    (h2 : truncAtLastSep s1 = some s2)
    (hL : env.pydllOk = true) (hP : env.pyMainOk = true)
    (hV : env.allocArgvOk = true) :
    (wmain env argv).2 =
      Outcome.exitCode (env.pyMain 2 (builtArgv argv (s2 ++ launchSuffix))) := by
  rw [wmain_success env argv s1 s2 hA hG h1 h2 hL hP hV]

/-- Witness for C5 with a `Py_Main` that returns the negative value -3. -/
theorem C5_witness :
    (wmain envNeg [str "self"]).2 =
      Outcome.exitCode (envNeg.pyMain 2 (builtArgv [str "self"] (porcRoot ++ launchSuffix))) :=
  C5_exit_code_propagated envNeg [str "self"] porcDir porcRoot rfl (by decide)
    (by decide) (by decide) rfl rfl rfl

/-- Claim C6: if `LoadLibraryW` fails on a run that reaches it, the
`Py_Main` entry point is never invoked and the process exits with
status 1 after the fatal box. -/
theorem C6_load_failure_no_call (env : Env) (argv : List Str) (s1 s2 : Str)
    (hA : env.allocPathOk = true) (hG : env.gmfnRet ≠ 0)
    (h1 : truncAtLastSep env.gmfnBuf = some s1)
    (h2 : truncAtLastSep s1 = some s2)
    (hL : env.pydllOk = false) :
    (∀ (c : Nat) (v : List (Option Str)), Event.call c v ∉ (wmain env argv).1) ∧
    (wmain env argv).2 = Outcome.exitCode 1 := by
  rw [wmain_load_fail env argv s1 s2 hA hG h1 h2 hL]
  constructor
  · intro c v
    simp [trace0, trace1, trace2, trace3, trace4, errBox, mb, mbS]
  · rfl

/-- Witness for C6 at the load-failure environment. -/
theorem C6_witness :
    (∀ (c : Nat) (v : List (Option Str)),
      Event.call c v ∉ (wmain envLoadFail [str "self"]).1) ∧
    (wmain envLoadFail [str "self"]).2 = Outcome.exitCode 1 :=
  C6_load_failure_no_call envLoadFail [str "self"] porcDir porcRoot rfl (by decide)
    (by decide) (by decide) rfl

/-- Claim C7 (the code is the divergence): the second `calloc` — the
three-slot argument vector — is not checked.  When it fails while
everything else succeeds, the run ends in undefined behaviour (the
store `myargv[0] = argv[0]` through the null pointer) with no error
box and no termination status, contradicting the policy that every
allocation failure is detected at its origin and reported.  The
first `calloc` (the path buffer) is checked and does report. -/
theorem C7_unchecked_argv_alloc :
    wmain envArgvAllocFail [str "self"] =
      (trace6 envArgvAllocFail porcDir porcRoot, Outcome.undef) ∧
    countErr (trace6 envArgvAllocFail porcDir porcRoot) = 0 ∧
    wmain ⟨false, 33, porcPath, true, true, true, fun _ _ => 0⟩ [str "self"] =
      (trace0 ++ [errBox allocMsg], Outcome.exitCode 1) := by
  refine ⟨?_, by decide, ?_⟩
  · exact wmain_argv_alloc_undef envArgvAllocFail [str "self"] porcDir porcRoot
      rfl (by decide) (by decide) (by decide) rfl rfl rfl
  · exact wmain_alloc_fail _ [str "self"] rfl

/-- Claim C8: on every run, at most one fatal box (title
`Porcupine cannot start`) is shown; if one is shown, its message is
one of the four step-naming messages, it is the only one, `Py_Main`
is never called, and the process exits with status 1; each of the
four failure causes — allocation failure, own-path-resolution
failure, library-load failure, symbol-resolution failure — does
display its own step-naming box, exactly one fatal box in total, and
exits with status 1; and on any run that does call `Py_Main`, no
fatal box is shown and the exit status is exactly the entry point's
return value — one terminal failure behaviour per cause and one
success path. -/
theorem C8_fatal_error_surface (env : Env) (argv : List Str) :
    countErr (wmain env argv).1 ≤ 1 ∧
    (∀ m : Str, errBox m ∈ (wmain env argv).1 →
      (wmain env argv).2 = Outcome.exitCode 1 ∧
      (∀ (c : Nat) (v : List (Option Str)), Event.call c v ∉ (wmain env argv).1) ∧
      (m = allocMsg ∨ m = gmfnMsg ∨ m = loadMsg ∨ m = symMsg) ∧
      countErr (wmain env argv).1 = 1) ∧
    (∀ (c : Nat) (v : List (Option Str)), Event.call c v ∈ (wmain env argv).1 →
      countErr (wmain env argv).1 = 0 ∧
      (wmain env argv).2 = Outcome.exitCode (env.pyMain c v)) ∧
    (env.allocPathOk = false →
      errBox allocMsg ∈ (wmain env argv).1 ∧
      countErr (wmain env argv).1 = 1 ∧
      (wmain env argv).2 = Outcome.exitCode 1) ∧
    (env.allocPathOk = true → env.gmfnRet = 0 →
      errBox gmfnMsg ∈ (wmain env argv).1 ∧
      countErr (wmain env argv).1 = 1 ∧
      (wmain env argv).2 = Outcome.exitCode 1) ∧
    (∀ s1 s2 : Str, env.allocPathOk = true → env.gmfnRet ≠ 0 →
      truncAtLastSep env.gmfnBuf = some s1 → truncAtLastSep s1 = some s2 →
      env.pydllOk = false →
      errBox loadMsg ∈ (wmain env argv).1 ∧
      countErr (wmain env argv).1 = 1 ∧
      (wmain env argv).2 = Outcome.exitCode 1) ∧
    (∀ s1 s2 : Str, env.allocPathOk = true → env.gmfnRet ≠ 0 →
      truncAtLastSep env.gmfnBuf = some s1 → truncAtLastSep s1 = some s2 →
      env.pydllOk = true → env.pyMainOk = false →
      errBox symMsg ∈ (wmain env argv).1 ∧
      countErr (wmain env argv).1 = 1 ∧
      (wmain env argv).2 = Outcome.exitCode 1) := by
  have hbase :
      countErr (wmain env argv).1 ≤ 1 ∧
      (∀ m : Str, errBox m ∈ (wmain env argv).1 →
        (wmain env argv).2 = Outcome.exitCode 1 ∧
        (∀ (c : Nat) (v : List (Option Str)), Event.call c v ∉ (wmain env argv).1) ∧
        (m = allocMsg ∨ m = gmfnMsg ∨ m = loadMsg ∨ m = symMsg) ∧
        countErr (wmain env argv).1 = 1) ∧
      (∀ (c : Nat) (v : List (Option Str)), Event.call c v ∈ (wmain env argv).1 →
        countErr (wmain env argv).1 = 0 ∧
        (wmain env argv).2 = Outcome.exitCode (env.pyMain c v)) := by
    by_cases hA : env.allocPathOk = false
    · rw [wmain_alloc_fail env argv hA]
      refine ⟨by decide, ?_, ?_⟩
      · intro m hm
        simp [trace0, mb, errBox, str] at hm
        subst hm
        exact ⟨rfl, by simp [trace0, mb, errBox], Or.inl rfl, by decide⟩
      · intro c v h
        simp [trace0, mb, errBox] at h
    · have hA' : env.allocPathOk = true := by simpa using hA
      by_cases hG : env.gmfnRet = 0
      · rw [wmain_gmfn_fail env argv hA' hG]
        refine ⟨by decide, ?_, ?_⟩
        · intro m hm
          simp [trace0, trace1, mb, errBox, str] at hm
          subst hm
          exact ⟨rfl, by simp [trace0, trace1, mb, errBox], Or.inr (Or.inl rfl), by decide⟩
        · intro c v h
          simp [trace0, trace1, mb, errBox] at h
      · cases hT1 : truncAtLastSep env.gmfnBuf with
        | none =>
          rw [wmain_trunc1_undef env argv hA' hG hT1]
          refine ⟨?_, ?_, ?_⟩
          · simp [countErr, isErr, trace0, trace1, trace2, mb, mbS]
          · intro m hm
            simp [trace0, trace1, trace2, mb, mbS, errBox, str] at hm
          · intro c v h
            simp [trace0, trace1, trace2, mb, mbS] at h
        | some s1 =>
          cases hT2 : truncAtLastSep s1 with
          | none =>
            rw [wmain_trunc2_undef env argv s1 hA' hG hT1 hT2]
            refine ⟨?_, ?_, ?_⟩
            · simp [countErr, isErr, trace0, trace1, trace2, trace3, mb, mbS]
            · intro m hm
              simp [trace0, trace1, trace2, trace3, mb, mbS, errBox, str] at hm
            · intro c v h
              simp [trace0, trace1, trace2, trace3, mb, mbS] at h
          | some s2 =>
            by_cases hL : env.pydllOk = false
            · rw [wmain_load_fail env argv s1 s2 hA' hG hT1 hT2 hL]
              refine ⟨?_, ?_, ?_⟩
              · simp [countErr, isErr, trace0, trace1, trace2, trace3, trace4, mb, mbS, errBox]
              · intro m hm
                simp [trace0, trace1, trace2, trace3, trace4, mb, mbS, errBox, str] at hm
                subst hm
                refine ⟨rfl, ?_, Or.inr (Or.inr (Or.inl rfl)), ?_⟩
                · intro c v
                  simp [trace0, trace1, trace2, trace3, trace4, mb, mbS, errBox]
                · simp [countErr, isErr, trace0, trace1, trace2, trace3, trace4, mb, mbS, errBox]
              · intro c v h
                simp [trace0, trace1, trace2, trace3, trace4, mb, mbS, errBox] at h
            · have hL' : env.pydllOk = true := by simpa using hL
              by_cases hP : env.pyMainOk = false
              · rw [wmain_sym_fail env argv s1 s2 hA' hG hT1 hT2 hL' hP]
                refine ⟨?_, ?_, ?_⟩
                · simp [countErr, isErr, trace0, trace1, trace2, trace3, trace4, trace5,
                    mb, mbS, errBox]
                · intro m hm
                  simp [trace0, trace1, trace2, trace3, trace4, trace5, mb, mbS, errBox,
                    str] at hm
                  subst hm
                  refine ⟨rfl, ?_, Or.inr (Or.inr (Or.inr rfl)), ?_⟩
                  · intro c v
                    simp [trace0, trace1, trace2, trace3, trace4, trace5, mb, mbS, errBox]
                  · simp [countErr, isErr, trace0, trace1, trace2, trace3, trace4, trace5,
                      mb, mbS, errBox]
                · intro c v h
                  simp [trace0, trace1, trace2, trace3, trace4, trace5, mb, mbS, errBox] at h
              · have hP' : env.pyMainOk = true := by simpa using hP
                by_cases hV : env.allocArgvOk = false
                · rw [wmain_argv_alloc_undef env argv s1 s2 hA' hG hT1 hT2 hL' hP' hV]
                  refine ⟨?_, ?_, ?_⟩
                  · simp [countErr, isErr, trace0, trace1, trace2, trace3, trace4, trace5,
                      trace6, mb, mbS]
                  · intro m hm
                    simp [trace0, trace1, trace2, trace3, trace4, trace5, trace6,
                      mb, mbS, errBox, str] at hm
                  · intro c v h
                    simp [trace0, trace1, trace2, trace3, trace4, trace5, trace6,
                      mb, mbS] at h
                · have hV' : env.allocArgvOk = true := by simpa using hV
                  rw [wmain_success env argv s1 s2 hA' hG hT1 hT2 hL' hP' hV']
                  refine ⟨?_, ?_, ?_⟩
                  · simp [countErr, isErr, preTrace, trace0, trace1, trace2, trace3,
                      trace4, trace5, trace6, builtArgv, mb, mbS]
                  · intro m hm
                    simp [preTrace, trace0, trace1, trace2, trace3, trace4, trace5,
                      trace6, builtArgv, mb, mbS, errBox, str] at hm
                  · intro c v h
                    simp [preTrace, trace0, trace1, trace2, trace3, trace4, trace5,
                      trace6, builtArgv, mb, mbS, errBox] at h
                    obtain ⟨rfl, rfl⟩ := h
                    constructor
                    · simp [countErr, isErr, preTrace, trace0, trace1, trace2, trace3,
                        trace4, trace5, trace6, builtArgv, mb, mbS]
                    · simp [builtArgv]
  refine ⟨hbase.1, hbase.2.1, hbase.2.2, ?_, ?_, ?_, ?_⟩
  · intro hA
    rw [wmain_alloc_fail env argv hA]
    exact ⟨by simp [trace0], by decide, rfl⟩
  · intro hA hG
    rw [wmain_gmfn_fail env argv hA hG]
    exact ⟨by simp [trace0, trace1], by decide, rfl⟩
  · intro s1 s2 hA hG h1 h2 hL
    rw [wmain_load_fail env argv s1 s2 hA hG h1 h2 hL]
    refine ⟨by simp [trace0, trace1, trace2, trace3, trace4], ?_, rfl⟩
    simp [countErr, isErr, trace0, trace1, trace2, trace3, trace4, mb, mbS, errBox]
  · intro s1 s2 hA hG h1 h2 hL hP
    rw [wmain_sym_fail env argv s1 s2 hA hG h1 h2 hL hP]
    refine ⟨by simp [trace0, trace1, trace2, trace3, trace4, trace5], ?_, rfl⟩
    simp [countErr, isErr, trace0, trace1, trace2, trace3, trace4, trace5, mb, mbS, errBox]

/-- Witness for C8 exercising every failure cause: the allocation,
own-path-resolution, library-load, and symbol-resolution failures
each display their own step-naming fatal box, exactly one fatal box
in total, and exit with status 1. -/
theorem C8_witness :
    (errBox allocMsg ∈ (wmain envAllocFail [str "self"]).1 ∧
     countErr (wmain envAllocFail [str "self"]).1 = 1 ∧
     (wmain envAllocFail [str "self"]).2 = Outcome.exitCode 1) ∧
    (errBox gmfnMsg ∈ (wmain envGmfnFail [str "self"]).1 ∧
     countErr (wmain envGmfnFail [str "self"]).1 = 1 ∧
     (wmain envGmfnFail [str "self"]).2 = Outcome.exitCode 1) ∧
    (errBox loadMsg ∈ (wmain envLoadFail [str "self"]).1 ∧
     countErr (wmain envLoadFail [str "self"]).1 = 1 ∧
     (wmain envLoadFail [str "self"]).2 = Outcome.exitCode 1) ∧
    (errBox symMsg ∈ (wmain envSymFail [str "self"]).1 ∧
     countErr (wmain envSymFail [str "self"]).1 = 1 ∧
     (wmain envSymFail [str "self"]).2 = Outcome.exitCode 1) :=
  ⟨(C8_fatal_error_surface envAllocFail [str "self"]).2.2.2.1 rfl,
   (C8_fatal_error_surface envGmfnFail [str "self"]).2.2.2.2.1 rfl rfl,
   (C8_fatal_error_surface envLoadFail [str "self"]).2.2.2.2.2.1 porcDir porcRoot
     rfl (by decide) (by decide) (by decide) rfl,
   (C8_fatal_error_surface envSymFail [str "self"]).2.2.2.2.2.2 porcDir porcRoot
     rfl (by decide) (by decide) (by decide) rfl rfl⟩

/-- Claim C9: on every run that reaches the `Py_Main` call, whatever
the original command line, the count passed is the constant 2 and the
vector has exactly three slots: slot 0 is the original `argv[0]`
(not the resolved own path, which may differ), slot 1 is the derived
script path, and slot 2 is the null sentinel. -/
theorem C9_argc_two_three_slots (env : Env) (argv : List Str) (s1 s2 : Str)
    (hA : env.allocPathOk = true) (hG : env.gmfnRet ≠ 0)
    (h1 : truncAtLastSep env.gmfnBuf = some s1)
    (h2 : truncAtLastSep s1 = some s2)
    (hL : env.pydllOk = true) (hP : env.pyMainOk = true)
    (hV : env.allocArgvOk = true) :
    Event.call 2 (builtArgv argv (s2 ++ launchSuffix)) ∈ (wmain env argv).1 ∧
    ∀ (c : Nat) (v : List (Option Str)), Event.call c v ∈ (wmain env argv).1 →
      c = 2 ∧ v.length = 3 ∧ v[0]? = some argv.head? ∧
      v[1]? = some (some (s2 ++ launchSuffix)) ∧ v[2]? = some none := by
  rw [wmain_success env argv s1 s2 hA hG h1 h2 hL hP hV]
  constructor
  · simp
  · intro c v h
    simp [preTrace, trace0, trace1, trace2, trace3, trace4, trace5, trace6,
      builtArgv, mb, mbS] at h
    obtain ⟨rfl, rfl⟩ := h
    simp [builtArgv]

/-- Witness for C9 at the all-success environment with a single
original argument. -/
theorem C9_witness :
    Event.call 2 (builtArgv [str "self"] (porcRoot ++ launchSuffix)) ∈
      (wmain envOk [str "self"]).1 ∧
    ∀ (c : Nat) (v : List (Option Str)), Event.call c v ∈ (wmain envOk [str "self"]).1 →
      c = 2 ∧ v.length = 3 ∧ v[0]? = some ([str "self"].head?) ∧
      v[1]? = some (some (porcRoot ++ launchSuffix)) ∧ v[2]? = some none :=
  C9_argc_two_three_slots envOk [str "self"] porcDir porcRoot rfl (by decide)
    (by decide) (by decide) rfl rfl rfl

/-- Claim C10: on a failure-free run the trace is exactly the sixteen
debug boxes of `preTrace` (at least thirteen), then the `Py_Main`
call, then one further box whose text reports the return value —
the debug boxes are observable effects of the success path. -/
theorem C10_debug_boxes (env : Env) (argv : List Str) (s1 s2 : Str)
    (hA : env.allocPathOk = true) (hG : env.gmfnRet ≠ 0)
    (h1 : truncAtLastSep env.gmfnBuf = some s1)
    (h2 : truncAtLastSep s1 = some s2)
    (hL : env.pydllOk = true) (hP : env.pyMainOk = true)
    (hV : env.allocArgvOk = true) :
    wmain env argv =
      (preTrace env argv s1 s2 ++
        [Event.call 2 (builtArgv argv (s2 ++ launchSuffix)),
         mbS (pyMainDoneMsg (env.pyMain 2 (builtArgv argv (s2 ++ launchSuffix)))) "main DONE"],
       Outcome.exitCode (env.pyMain 2 (builtArgv argv (s2 ++ launchSuffix)))) ∧
    13 ≤ ((preTrace env argv s1 s2).filter isBox).length ∧
    countErr (preTrace env argv s1 s2) = 0 := by
  refine ⟨wmain_success env argv s1 s2 hA hG h1 h2 hL hP hV, ?_, ?_⟩
  · simp [preTrace, trace0, trace1, trace2, trace3, trace4, trace5, trace6,
      builtArgv, isBox, mb, mbS]
  · simp [countErr, isErr, preTrace, trace0, trace1, trace2, trace3, trace4,
      trace5, trace6, builtArgv, mb, mbS]

/-- Witness for C10 at the all-success environment. -/
theorem C10_witness :
    wmain envOk [str "self"] =
      (preTrace envOk [str "self"] porcDir porcRoot ++
        [Event.call 2 (builtArgv [str "self"] (porcRoot ++ launchSuffix)),
         mbS (pyMainDoneMsg (envOk.pyMain 2 (builtArgv [str "self"] (porcRoot ++ launchSuffix))))
           "main DONE"],
       Outcome.exitCode (envOk.pyMain 2 (builtArgv [str "self"] (porcRoot ++ launchSuffix)))) ∧
    13 ≤ ((preTrace envOk [str "self"] porcDir porcRoot).filter isBox).length ∧
    countErr (preTrace envOk [str "self"] porcDir porcRoot) = 0 :=
  C10_debug_boxes envOk [str "self"] porcDir porcRoot rfl (by decide)
    (by decide) (by decide) rfl rfl rfl

/-- Counterexample to claim C1: started as `[self, --flag, x]`
(N = 2), the program hands `Py_Main` the count 2 — not N + 2 = 4 —
and the vector `[self, C:\Porcupine\launch.pyw, NULL]`, which drops
the pass-through arguments and injects the original `argv[0]`, not
the spec's `InterpreterExecutablePath`. -/
theorem C1_counterexample :
    callsOf (wmain envOk [str "self", str "--flag", str "x"]).1 =
      [(2, [some (str "self"), some porcScript, none])] ∧
    specArgVector porcPath [str "--flag", str "x"] =
      some [some (str "C:\\Porcupine\\Python\\python.exe"), some porcScript,
            some (str "--flag"), some (str "x"), none] ∧
    ((2 : Nat), [some (str "self"), some porcScript, (none : Option Str)]) ≠
      (2 + 2, [some (str "C:\\Porcupine\\Python\\python.exe"), some porcScript,
               some (str "--flag"), some (str "x"), none]) := by
  refine ⟨by decide, by decide, by decide⟩

/-- Claim C1 as amended: on every run that reaches the entry point,
the count handed to `Py_Main` is the constant 2 and the vector is
`[argv[0], LauncherScriptPath, NULL]` — the original arguments after
slot 0 are discarded, and no interpreter path is derived or
injected. -/
theorem C1_amended_argv_rebuilt (env : Env) (argv : List Str) (s1 s2 : Str)
    (hA : env.allocPathOk = true) (hG : env.gmfnRet ≠ 0)
    (h1 : truncAtLastSep env.gmfnBuf = some s1)
    (h2 : truncAtLastSep s1 = some s2)
    (hL : env.pydllOk = true) (hP : env.pyMainOk = true)
    (hV : env.allocArgvOk = true) :
    callsOf (wmain env argv).1 = [(2, builtArgv argv (s2 ++ launchSuffix))] := by
  rw [wmain_success env argv s1 s2 hA hG h1 h2 hL hP hV]
  simp [callsOf, preTrace, trace0, trace1, trace2, trace3, trace4, trace5, trace6,
    builtArgv, mb, mbS]

/-- Witness for the amended C1 at the all-success environment. -/
theorem C1_witness :
    callsOf (wmain envOk [str "self", str "--flag", str "x"]).1 =
      [(2, builtArgv [str "self", str "--flag", str "x"] (porcRoot ++ launchSuffix))] :=
  C1_amended_argv_rebuilt envOk [str "self", str "--flag", str "x"] porcDir porcRoot
    rfl (by decide) (by decide) (by decide) rfl rfl rfl

end Launcher
